import Mathlib

/-!
# physics_sim: the integrator `update_balls` and the particle store of `main`

A shallow embedding of `src/physics.c`.

* The C `float` arithmetic of `update_balls` is modelled twice. The exact model works
  over an arbitrary linearly ordered field `K`; its theorems instantiate `K` with the
  real numbers and the libm function `sqrtf` with `Real.sqrt`. The binary32 model
  (`F32`, `update_balls32`) rounds every operation to IEEE 754 binary32, to nearest
  with ties to even, as a C implementation with `FLT_EVAL_METHOD` 0 and no contraction
  of products and sums does.
* A division whose divisor is zero has no value in the exact model: `fdiv` returns
  `none`, and `update_balls` returns `none` exactly when it executes `1.0f / distance`
  with `distance == 0`.
* `rand()` is modelled by an arbitrary stream `rng : Nat → Nat` of non-negative values
  together with the number of calls made so far.
-/

namespace PhysicsSim

/-! ## Data model (physics.c lines 14-26) -/

/-- The struct `Vector` of physics.c (lines 14-17). -/
structure Vector (K : Type) where
  x : K
  y : K

/-- The struct `SDL_Color`: four `Uint8` channels. -/
structure SDL_Color where
  r : Nat
  g : Nat
  b : Nat
  a : Nat

/-- The struct `Circle` of physics.c (lines 19-23). -/
structure Circle (K : Type) where
  position : Vector K
  velocity : Vector K
  color : SDL_Color

/-- The macro `SCREEN_WIDTH`, defined as `720`. -/
def SCREEN_WIDTH : Int := 720

/-- The macro `SCREEN_HEIGHT`, defined as `720`. -/
def SCREEN_HEIGHT : Int := 720

/-- The macro `GRAVITY`, defined as `750.0f`. -/
def GRAVITY {K : Type} [LinearOrderedField K] : K := 750

/-- The macro `AIR_RESISTANCE`, defined as `0.90f`. -/
def AIR_RESISTANCE {K : Type} [LinearOrderedField K] : K := 90 / 100

/-- The macro `CIRCLE_WINDOW_RADIUS`, defined as `SCREEN_HEIGHT / 2`: an `int`
division. -/
def CIRCLE_WINDOW_RADIUS : Int := Int.tdiv SCREEN_HEIGHT 2

/-- The macro `BALL_RADIUS`, defined as `CIRCLE_WINDOW_RADIUS / 50`: it expands to
`720 / 2 / 50`, an `int` expression evaluated with truncating division. -/
def BALL_RADIUS : Int := Int.tdiv CIRCLE_WINDOW_RADIUS 50

/-! ## The integrator `update_balls` (physics.c lines 55-82) -/

section Integrator

variable {K : Type} [LinearOrderedField K]

/-- Division that has no value when the divisor is zero. -/
def fdiv (a b : K) : Option K :=
  if b = 0 then none else some (a / b)

/-- Lines 57-60 of `update_balls`: gravity, then the damped translation, which uses
the velocity already updated by gravity. -/
def integrate (ball : Circle K) (delta_time : K) : Circle K :=
  let vy := ball.velocity.y + GRAVITY * delta_time
  { position :=
      { x := ball.position.x + ball.velocity.x * AIR_RESISTANCE * delta_time
        y := ball.position.y + vy * AIR_RESISTANCE * delta_time }
    velocity := { x := ball.velocity.x, y := vy }
    color := ball.color }

/-- Lines 62-65 of `update_balls`: the initialiser of `direction_to_center`. -/
def direction_to_center (ball wall : Circle K) : Vector K :=
  { x := ball.position.x - wall.position.x
    y := ball.position.y - wall.position.y }

/-- Line 67 of `update_balls`: `distance`, for the libm function `sqrtf`. -/
def distance (sqrtf : K → K) (ball wall : Circle K) : K :=
  let d := direction_to_center ball wall
  sqrtf (d.x * d.x + d.y * d.y)

/-- Line 68 of `update_balls`: the test of the collision branch, made on the ball
after gravity and translation. -/
def collides (sqrtf : K → K) (ball wall : Circle K) (delta_time : K) : Prop :=
  distance sqrtf (integrate ball delta_time) wall + (BALL_RADIUS : K)
    ≥ (CIRCLE_WINDOW_RADIUS : K)

instance (sqrtf : K → K) (ball wall : Circle K) (delta_time : K) :
    Decidable (collides sqrtf ball wall delta_time) := by
  unfold collides; infer_instance

/-- Lines 69-79 of `update_balls`: the body of the collision branch, given the value
`normal` of `1.0f / distance`. -/
def reflect (ball wall : Circle K) (dist normal : K) : Circle K :=
  let d := direction_to_center ball wall
  let dx := d.x * normal
  let dy := d.y * normal
  let reflection_velocity := ball.velocity.x * dx + ball.velocity.y * dy
  let rev_wall_clip := dist + (BALL_RADIUS : K) - (CIRCLE_WINDOW_RADIUS : K)
  { position :=
      { x := ball.position.x - dx * rev_wall_clip
        y := ball.position.y - dy * rev_wall_clip }
    velocity :=
      { x := ball.velocity.x - 2 * reflection_velocity * dx
        y := ball.velocity.y - 2 * reflection_velocity * dy }
    color := ball.color }

/-- The function `update_balls(ball, wall, delta_time)` (physics.c lines 55-82), for
distinct `ball` and `wall` as in every call of `main`. The result is `none` when the
division `1.0f / distance` of line 69 is executed with `distance == 0`. -/
def update_balls (sqrtf : K → K) (ball wall : Circle K) (delta_time : K) :
    Option (Circle K) :=
  let moved := integrate ball delta_time
  let dist := distance sqrtf moved wall
  if collides sqrtf ball wall delta_time then
    match fdiv 1 dist with
    | none => none
    | some normal => some (reflect moved wall dist normal)
  else
    some moved

end Integrator

/-! ## The particle store of `main` (physics.c lines 98-163) -/

/-- The macro `MAX_BALLS`, defined as `2048`. -/
def MAX_BALLS : Nat := 2048

/-- The constant `n` of `main` (line 109). -/
def n : Int := 1000

/-- The keys told apart by the inner switch of `main` (lines 139-162); `other` is
any scancode that reaches the `default` label. -/
inductive Scancode where
  | R
  | Q
  | SPACE
  | other
  deriving DecidableEq, Repr

/-- The `int` expression `rand() % (2 * n + 1) - n` of lines 116 and 155, for the
value `r` returned by `rand()`. -/
def spawn_velocity_x (r : Nat) : Int :=
  Int.tmod (r : Int) (2 * n + 1) - n

/-- The `int` expression `rand() % (2 * n) - n` of line 144, for the value `r`
returned by `rand()`. -/
def reset_velocity_x (r : Nat) : Int :=
  Int.tmod (r : Int) (2 * n) - n

section Store

variable {K : Type} [LinearOrderedField K]

/-- The local variables of `main` that the event switch reads and writes, and the
state of `rand()`: the stream `rng` of its values and the number `calls` of calls
made so far. The array `balls` is a function of the index. -/
structure State (K : Type) where
  ball : Circle K
  balls : Nat → Circle K
  ball_count : Nat
  running : Bool
  rng : Nat → Nat
  calls : Nat

/-- The initialiser of `circle_window` (lines 120-124). -/
def circle_window : Circle K :=
  { position := { x := ((Int.tdiv SCREEN_WIDTH 2 : Int) : K)
                  y := ((Int.tdiv SCREEN_HEIGHT 2 : Int) : K) }
    velocity := { x := 0, y := 0 }
    color := { r := 20, g := 20, b := 20, a := 0 } }

/-- The initialisers of lines 114-118 and 153-157: a circle at the centre of the
screen whose horizontal velocity and colour come from four values of `rand()`, taken
in the order in which the calls are written. -/
def random_circle (r0 r1 r2 r3 : Nat) : Circle K :=
  { position := { x := ((Int.tdiv SCREEN_WIDTH 2 : Int) : K)
                  y := ((Int.tdiv SCREEN_HEIGHT 2 : Int) : K) }
    velocity := { x := ((spawn_velocity_x r0 : Int) : K), y := 0 }
    color := { r := r1 % 256, g := r2 % 256, b := r3 % 256, a := 0 } }

/-- The state of `main` when it enters its loop (lines 109-126), for the stream `rng`
seeded by `srand` and the indeterminate content `balls0` of the array `balls`. -/
def init (rng : Nat → Nat) (balls0 : Nat → Circle K) : State K :=
  { ball := random_circle (rng 0) (rng 1) (rng 2) (rng 3)
    balls := balls0
    ball_count := 1
    running := true
    rng := rng
    calls := 4 }

/-- The body of the loop, lines 153-157: the assignment to `balls[ball_count++]` of a
circle built from the next four values of `rand()`. -/
def spawn_body (s : State K) : State K :=
  { s with
    balls := Function.update s.balls s.ball_count
      (random_circle (s.rng s.calls) (s.rng (s.calls + 1))
        (s.rng (s.calls + 2)) (s.rng (s.calls + 3)))
    ball_count := s.ball_count + 1
    calls := s.calls + 4 }

/-- The loop of lines 152-158, `while (ball_count < MAX_BALLS)`, around
`spawn_body`. -/
def spawn_loop (s : State K) : State K :=
  if s.ball_count < MAX_BALLS then
    spawn_loop (spawn_body s)
  else
    s
termination_by MAX_BALLS - s.ball_count
decreasing_by
  simp_wf
  simp only [spawn_body]
  omega

/-- The case `SDL_SCANCODE_R` (lines 140-146). -/
def reset (s : State K) : State K :=
  { s with
    ball :=
      { position := { x := ((Int.tdiv SCREEN_WIDTH 2 : Int) : K)
                      y := ((Int.tdiv SCREEN_HEIGHT 2 : Int) : K) }
        velocity := { x := ((reset_velocity_x (s.rng s.calls) : Int) : K), y := 0 }
        color := s.ball.color }
    ball_count := 1
    calls := s.calls + 1 }

/-- The inner switch of `main` on the scancode of a key-down event (lines 139-162).
The case `SDL_SCANCODE_Q` has no `break` and runs into the case `SDL_SCANCODE_SPACE`,
which runs into `default`. -/
def keydown (s : State K) : Scancode → State K
  | Scancode.R => reset s
  | Scancode.Q => spawn_loop { s with running := false }
  | Scancode.SPACE => spawn_loop s
  | Scancode.other => s

/-- The state after a sequence of key-down events, handled one after the other. -/
def run (s : State K) (keys : List Scancode) : State K :=
  keys.foldl keydown s

end Store

/-! ## The binary32 arithmetic of the C type `float` -/

/-- A binary32 value. A finite value is stored as the integer `k` for which the value
is `k * 2 ^ (-149)`: every finite binary32 value is such a multiple of the smallest
positive one. The two zeros are not told apart: they compare equal, and `update_balls`
neither divides by a zero nor takes the root of a negative zero. -/
inductive F32 where
  | fin (k : Int)
  | inf (neg : Bool)
  | nan
  deriving DecidableEq, Repr

namespace F32

/-- The quotient `N / D` rounded to the nearest natural number, ties to even. -/
def rne (N D : Nat) : Nat :=
  if 2 * (N % D) < D then N / D
  else if D < 2 * (N % D) then N / D + 1
  else if (N / D) % 2 = 0 then N / D else N / D + 1

/-- The number of binary digits of `m`, for `fuel` at least that number. -/
def bits : Nat → Nat → Nat
  | 0, _ => 0
  | fuel + 1, m => if m = 0 then 0 else bits fuel (m / 2) + 1

/-- The spacing, in units of `2 ^ (-149)`, of the binary32 values around a magnitude
of `m` units: `1` up to 24 binary digits (subnormal values and the first binade),
and `2 ^ (digits - 24)` above, which leaves 24 significant digits. -/
def quantum (m : Nat) : Nat := 2 ^ (bits m m - 24)

/-- The binary32 value nearest to `N / D` units of `2 ^ (-149)`, ties to even; a
rounded magnitude of `2 ^ 128` or more overflows to an infinity. -/
def round (N : Int) (D : Nat) : F32 :=
  let q := quantum (N.natAbs / D)
  let r := rne N.natAbs (D * q) * q
  if 2 ^ 128 * 2 ^ 149 ≤ r then inf (decide (N < 0)) else fin (N.sign * r)

/-- The conversion of an `int` to `float`. -/
def ofInt (i : Int) : F32 := round (i * 2 ^ 149) 1

/-- The value of a decimal `float` constant `num / den`, such as `0.90f`. -/
def ofDecimal (num : Int) (den : Nat) : F32 := round (num * 2 ^ 149) den

/-- Unary minus. -/
def neg : F32 → F32
  | fin k => fin (-k)
  | inf s => inf (!s)
  | nan => nan

/-- The operator `+` on `float`. -/
def add : F32 → F32 → F32
  | fin a, fin b => round (a + b) 1
  | fin _, inf s => inf s
  | inf s, fin _ => inf s
  | inf s, inf t => if s = t then inf s else nan
  | _, _ => nan

/-- The operator `-` on `float`. -/
def sub (a b : F32) : F32 := add a (neg b)

/-- The operator `*` on `float`. -/
def mul : F32 → F32 → F32
  | fin a, fin b => round (a * b) (2 ^ 149)
  | fin a, inf s => if a = 0 then nan else inf (xor s (decide (a < 0)))
  | inf s, fin b => if b = 0 then nan else inf (xor s (decide (b < 0)))
  | inf s, inf t => inf (xor s t)
  | _, _ => nan

/-- The operator `/` on `float`; a zero divisor counts as a positive zero. -/
def div : F32 → F32 → F32
  | fin a, fin b =>
    if b = 0 then (if a = 0 then nan else inf (decide (a < 0)))
    else round (a * 2 ^ 149 * b.sign) b.natAbs
  | fin _, inf _ => fin 0
  | inf s, fin b => inf (xor s (decide (b < 0)))
  | _, _ => nan

/-- The rounding of the square root of `M` units squared, given its integer part `s`:
with `q` the spacing at `s` and `t` the multiple of `q` below the root, the root is
compared with the midpoint `(t + 1/2) * q` through the squares. -/
def sqrt_round (M s : Nat) : F32 :=
  let q := quantum s
  let t := s / q
  let h := ((2 * t + 1) * q) ^ 2
  if 4 * M < h then fin ((t * q : Nat) : Int)
  else if h < 4 * M then fin (((t + 1) * q : Nat) : Int)
  else if t % 2 = 0 then fin ((t * q : Nat) : Int) else fin (((t + 1) * q : Nat) : Int)

/-- The libm function `sqrtf`, correctly rounded as IEEE 754 requires of the square
root. The root of `k` units is the root of `k * 2 ^ 149` units squared. -/
def sqrt : F32 → F32
  | fin k =>
    if k < 0 then nan
    else sqrt_round (k.toNat * 2 ^ 149) (Nat.sqrt (k.toNat * 2 ^ 149))
  | inf s => if s then nan else inf false
  | nan => nan

/-- The operator `>=` on `float`: false when an operand is NaN. -/
def ge : F32 → F32 → Bool
  | fin a, fin b => decide (b ≤ a)
  | fin _, inf t => t
  | inf s, fin _ => !s
  | inf s, inf t => !s || t
  | _, _ => false

/-- The operator `<` on `float`: false when an operand is NaN. -/
def lt : F32 → F32 → Bool
  | fin a, fin b => decide (a < b)
  | fin _, inf t => !t
  | inf s, fin _ => s
  | inf s, inf t => s && !t
  | _, _ => false

/-- The rational value of a finite binary32 value (and zero for the others). -/
def toRat : F32 → ℚ
  | fin k => (k : ℚ) / 2 ^ 149
  | _ => 0

end F32

/-! ## The integrator `update_balls` in binary32 (physics.c lines 49-82) -/

/-- The macro `GRAVITY`, the constant `750.0f`. -/
def GRAVITY32 : F32 := F32.ofDecimal 750 1

/-- The macro `AIR_RESISTANCE`, the constant `0.90f`. -/
def AIR_RESISTANCE32 : F32 := F32.ofDecimal 90 100

/-- Lines 57-60 of `update_balls`, each operation rounded to binary32. -/
def integrate32 (ball : Circle F32) (delta_time : F32) : Circle F32 :=
  let vy := F32.add ball.velocity.y (F32.mul GRAVITY32 delta_time)
  { position :=
      { x := F32.add ball.position.x
          (F32.mul (F32.mul ball.velocity.x AIR_RESISTANCE32) delta_time)
        y := F32.add ball.position.y
          (F32.mul (F32.mul vy AIR_RESISTANCE32) delta_time) }
    velocity := { x := ball.velocity.x, y := vy }
    color := ball.color }

/-- Lines 62-65 of `update_balls` in binary32. -/
def direction_to_center32 (ball wall : Circle F32) : Vector F32 :=
  { x := F32.sub ball.position.x wall.position.x
    y := F32.sub ball.position.y wall.position.y }

/-- The argument of `sqrtf` on line 67 in binary32. -/
def radicand32 (ball wall : Circle F32) : F32 :=
  let d := direction_to_center32 ball wall
  F32.add (F32.mul d.x d.x) (F32.mul d.y d.y)

/-- Line 67 of `update_balls` in binary32: `distance`. -/
def distance32 (ball wall : Circle F32) : F32 :=
  F32.sqrt (radicand32 ball wall)

/-- Line 68 of `update_balls` in binary32: the test of the collision branch; the
`int` values of `BALL_RADIUS` and `CIRCLE_WINDOW_RADIUS` are converted to `float`. -/
def collides32 (ball wall : Circle F32) (delta_time : F32) : Bool :=
  F32.ge
    (F32.add (distance32 (integrate32 ball delta_time) wall) (F32.ofInt BALL_RADIUS))
    (F32.ofInt CIRCLE_WINDOW_RADIUS)

/-- Lines 69-79 of `update_balls` in binary32: the body of the collision branch. -/
def reflect32 (ball wall : Circle F32) (dist : F32) : Circle F32 :=
  let normal := F32.div (F32.ofDecimal 1 1) dist
  let d := direction_to_center32 ball wall
  let dx := F32.mul d.x normal
  let dy := F32.mul d.y normal
  let reflection_velocity :=
    F32.add (F32.mul ball.velocity.x dx) (F32.mul ball.velocity.y dy)
  let rev_wall_clip :=
    F32.sub (F32.add dist (F32.ofInt BALL_RADIUS)) (F32.ofInt CIRCLE_WINDOW_RADIUS)
  { position :=
      { x := F32.sub ball.position.x (F32.mul dx rev_wall_clip)
        y := F32.sub ball.position.y (F32.mul dy rev_wall_clip) }
    velocity :=
      { x := F32.sub ball.velocity.x
          (F32.mul (F32.mul (F32.ofDecimal 2 1) reflection_velocity) dx)
        y := F32.sub ball.velocity.y
          (F32.mul (F32.mul (F32.ofDecimal 2 1) reflection_velocity) dy) }
    color := ball.color }

/-- The function `update_balls(ball, wall, delta_time)` (physics.c lines 55-82) in
binary32, for distinct `ball` and `wall` as in every call of `main`. -/
def update_balls32 (ball wall : Circle F32) (delta_time : F32) : Circle F32 :=
  let moved := integrate32 ball delta_time
  if collides32 ball wall delta_time then
    reflect32 moved wall (distance32 moved wall)
  else
    moved

/-- The initialiser of `circle_window` (lines 120-124) in binary32. -/
def circle_window32 : Circle F32 :=
  { position := { x := F32.ofInt (Int.tdiv SCREEN_WIDTH 2)
                  y := F32.ofInt (Int.tdiv SCREEN_HEIGHT 2) }
    velocity := { x := F32.ofInt 0, y := F32.ofInt 0 }
    color := { r := 20, g := 20, b := 20, a := 0 } }

/-- The primary particle as `main` initialises it (lines 114-118) when `rand()` gives
the horizontal velocity `444`: at the centre, with velocity `(444, 0)`. -/
def frame_ball : Circle F32 :=
  { position := { x := F32.ofInt (Int.tdiv SCREEN_WIDTH 2)
                  y := F32.ofInt (Int.tdiv SCREEN_HEIGHT 2) }
    velocity := { x := F32.ofInt 444, y := F32.ofInt 0 }
    color := { r := 0, g := 0, b := 0, a := 0 } }

/-- The value of `delta_time` on line 167 for a frame of 16 ticks:
`(cur_tick - last_tick) / 1000.0f`, the binary32 value `0.016f`. -/
def frame_dt : F32 := F32.div (F32.ofInt 16) (F32.ofDecimal 1000 1)

/-! ## The scenario of the specification -/

/-- The particle of the scenario: at `(centre.x, centre.y - 353)` with velocity
`(0, 100)`. -/
def scenario_ball {K : Type} [LinearOrderedField K] : Circle K :=
  { position := { x := 360, y := 360 - 353 }
    velocity := { x := 0, y := 100 }
    color := { r := 0, g := 0, b := 0, a := 0 } }

/-- A particle resting on the centre of the boundary. -/
def centre_ball {K : Type} [LinearOrderedField K] : Circle K :=
  { position := { x := 360, y := 360 }
    velocity := { x := 0, y := 0 }
    color := { r := 0, g := 0, b := 0, a := 0 } }

/-- A particle at distance `360` below the centre, moving with velocity `(3, 4)`. -/
def edge_ball {K : Type} [LinearOrderedField K] : Circle K :=
  { position := { x := 360, y := 720 }
    velocity := { x := 3, y := 4 }
    color := { r := 0, g := 0, b := 0, a := 0 } }

/-- A particle at rest `27/4` above the centre: a step with `dt = 1/10` moves it onto
the centre. -/
def above_centre_ball {K : Type} [LinearOrderedField K] : Circle K :=
  { position := { x := 360, y := 360 - 27 / 4 }
    velocity := { x := 0, y := 0 }
    color := { r := 0, g := 0, b := 0, a := 0 } }

/-- A state of the store over the rationals: the initial state of `main` for the
stream of values `0, 1, 2, ...` of `rand()`. -/
def sample_state : State ℚ :=
  init (fun i => i) (fun _ => centre_ball)

/-! ## Basic facts -/

theorem CIRCLE_WINDOW_RADIUS_eq : CIRCLE_WINDOW_RADIUS = 360 := by decide

theorem BALL_RADIUS_eq : BALL_RADIUS = 7 := by decide

/-- The collision test over the reals is `353 ≤ distance`. -/
theorem collides_iff (ball wall : Circle ℝ) (dt : ℝ) :
    collides Real.sqrt ball wall dt ↔ 353 ≤ distance Real.sqrt (integrate ball dt) wall := by
  unfold collides
  rw [CIRCLE_WINDOW_RADIUS_eq, BALL_RADIUS_eq]
  push_cast
  constructor <;> intro h <;> linarith

/-- Without a collision the step is the plain integration. -/
theorem update_balls_of_not_collides (ball wall : Circle ℝ) (dt : ℝ)
    (h : ¬ collides Real.sqrt ball wall dt) :
    update_balls Real.sqrt ball wall dt = some (integrate ball dt) := by
  unfold update_balls
  simp only [h, if_false]

/-- With a collision the division is defined and the step is the reflection. -/
theorem update_balls_of_collides (ball wall : Circle ℝ) (dt : ℝ)
    (h : collides Real.sqrt ball wall dt) :
    update_balls Real.sqrt ball wall dt
      = some (reflect (integrate ball dt) wall
          (distance Real.sqrt (integrate ball dt) wall)
          (1 / distance Real.sqrt (integrate ball dt) wall)) := by
  have h353 := (collides_iff ball wall dt).1 h
  have hne : distance Real.sqrt (integrate ball dt) wall ≠ 0 := by
    intro h0; rw [h0] at h353; norm_num at h353
  unfold update_balls
  simp only [h, if_true, fdiv, hne, if_false]

theorem half_width_eq : Int.tdiv SCREEN_WIDTH 2 = 360 := by decide

theorem half_height_eq : Int.tdiv SCREEN_HEIGHT 2 = 360 := by decide

theorem circle_window_position_x : (circle_window : Circle ℝ).position.x = 360 := by
  simp [circle_window, half_width_eq]

theorem circle_window_position_y : (circle_window : Circle ℝ).position.y = 360 := by
  simp [circle_window, half_height_eq]

/-- The distance is not negative. -/
theorem distance_nonneg (ball wall : Circle ℝ) : 0 ≤ distance Real.sqrt ball wall :=
  Real.sqrt_nonneg _

/-- The square of the distance is the squared length of `direction_to_center`. -/
theorem distance_mul_self (ball wall : Circle ℝ) :
    distance Real.sqrt ball wall * distance Real.sqrt ball wall
      = (ball.position.x - wall.position.x) * (ball.position.x - wall.position.x)
        + (ball.position.y - wall.position.y) * (ball.position.y - wall.position.y) := by
  unfold distance direction_to_center
  exact Real.mul_self_sqrt (add_nonneg (mul_self_nonneg _) (mul_self_nonneg _))

/-- A value of the distance is recognised by its square. -/
theorem distance_eq_of_mul_self (ball wall : Circle ℝ) (r : ℝ) (hr : 0 ≤ r)
    (h : (ball.position.x - wall.position.x) * (ball.position.x - wall.position.x)
        + (ball.position.y - wall.position.y) * (ball.position.y - wall.position.y)
        = r * r) :
    distance Real.sqrt ball wall = r := by
  unfold distance direction_to_center
  simp only
  rw [h]
  exact Real.sqrt_mul_self hr

/-- The edge particle, stepped with `dt = 0`, is at distance `360`. -/
theorem edge_ball_distance :
    distance Real.sqrt (integrate edge_ball 0) circle_window = 360 := by
  apply distance_eq_of_mul_self _ _ _ (by norm_num)
  simp only [circle_window_position_x, circle_window_position_y]
  simp only [integrate, edge_ball, GRAVITY, AIR_RESISTANCE]
  norm_num

theorem edge_ball_collides : collides Real.sqrt edge_ball circle_window 0 := by
  rw [collides_iff, edge_ball_distance]; norm_num

/-- The centre particle, stepped with `dt = 1/10`, is at distance `27/4`. -/
theorem centre_ball_distance :
    distance Real.sqrt (integrate centre_ball (1 / 10)) circle_window = 27 / 4 := by
  apply distance_eq_of_mul_self _ _ _ (by norm_num)
  simp only [circle_window_position_x, circle_window_position_y]
  simp only [integrate, centre_ball, GRAVITY, AIR_RESISTANCE]
  norm_num

theorem centre_ball_not_collides :
    ¬ collides Real.sqrt centre_ball circle_window (1 / 10) := by
  rw [collides_iff, centre_ball_distance]; norm_num

/-- The unit normal of the collision branch has squared length one. -/
theorem normal_mul_self (dx dy r : ℝ) (hr : r ≠ 0) (hsq : r * r = dx * dx + dy * dy) :
    dx * (1 / r) * (dx * (1 / r)) + dy * (1 / r) * (dy * (1 / r)) = 1 := by
  have e : dx * (1 / r) * (dx * (1 / r)) + dy * (1 / r) * (dy * (1 / r))
      = (dx * dx + dy * dy) / (r * r) := by
    field_simp
  rw [e, ← hsq]
  exact div_self (mul_ne_zero hr hr)

/-- After the clipping of the collision branch the ball is at distance
`CIRCLE_WINDOW_RADIUS - BALL_RADIUS = 353` from the centre of the wall. -/
theorem reflect_distance (m wall : Circle ℝ)
    (hr : 353 ≤ distance Real.sqrt m wall) :
    distance Real.sqrt
      (reflect m wall (distance Real.sqrt m wall) (1 / distance Real.sqrt m wall)) wall
      = 353 := by
  have hsq := distance_mul_self m wall
  generalize distance Real.sqrt m wall = r at hr hsq
  have hr0 : r ≠ 0 := by intro h0; rw [h0] at hr; norm_num at hr
  apply distance_eq_of_mul_self _ _ _ (by norm_num)
  simp only [reflect, direction_to_center, BALL_RADIUS_eq, CIRCLE_WINDOW_RADIUS_eq]
  push_cast
  have hn := normal_mul_self _ _ r hr0 hsq
  have e : ∀ p w : ℝ,
      p - (p - w) * (1 / r) * (r + 7 - 360) - w = 353 * ((p - w) * (1 / r)) := by
    intro p w
    field_simp
    ring
  rw [e, e]
  linear_combination (353 * 353) * hn

/-- The reflection of the collision branch keeps the squared speed. -/
theorem reflect_speed (m wall : Circle ℝ)
    (hr : 353 ≤ distance Real.sqrt m wall) :
    (reflect m wall (distance Real.sqrt m wall)
        (1 / distance Real.sqrt m wall)).velocity.x ^ 2
      + (reflect m wall (distance Real.sqrt m wall)
        (1 / distance Real.sqrt m wall)).velocity.y ^ 2
      = m.velocity.x ^ 2 + m.velocity.y ^ 2 := by
  have hsq := distance_mul_self m wall
  generalize distance Real.sqrt m wall = r at hr hsq
  have hr0 : r ≠ 0 := by intro h0; rw [h0] at hr; norm_num at hr
  have hn := normal_mul_self _ _ r hr0 hsq
  simp only [reflect, direction_to_center]
  linear_combination
    (4 * (m.velocity.x * ((m.position.x - wall.position.x) * (1 / r))
        + m.velocity.y * ((m.position.y - wall.position.y) * (1 / r))) ^ 2) * hn

/-! ## The integrator over the reals: claims C1, C2 -/

/-- C1: when a step of `update_balls` with `dt ≥ 0` takes the collision branch, the
distance of the returned ball from the centre of the wall plus `BALL_RADIUS` equals
`CIRCLE_WINDOW_RADIUS`: no penetration is left and the ball is not pushed further. -/
theorem update_balls_collision_distance (ball wall : Circle ℝ) (dt : ℝ) (_hdt : 0 ≤ dt)
    (h : collides Real.sqrt ball wall dt) :
    ∃ b, update_balls Real.sqrt ball wall dt = some b ∧
      distance Real.sqrt b wall + (BALL_RADIUS : ℝ) = (CIRCLE_WINDOW_RADIUS : ℝ) := by
  refine ⟨_, update_balls_of_collides ball wall dt h, ?_⟩
  rw [reflect_distance _ _ ((collides_iff ball wall dt).1 h), BALL_RADIUS_eq,
    CIRCLE_WINDOW_RADIUS_eq]
  norm_num

theorem update_balls_collision_distance_witness :
    (0 : ℝ) ≤ 0 ∧ collides Real.sqrt edge_ball circle_window 0 ∧
    ∃ b, update_balls Real.sqrt edge_ball circle_window 0 = some b ∧
      distance Real.sqrt b circle_window + (BALL_RADIUS : ℝ)
        = (CIRCLE_WINDOW_RADIUS : ℝ) :=
  ⟨le_refl 0, edge_ball_collides,
    update_balls_collision_distance edge_ball circle_window 0 (le_refl 0)
      edge_ball_collides⟩

/-- C2: when a step of `update_balls` takes the collision branch, the squared speed
of the returned ball equals the squared speed of the velocity just before the
reflection, `vx ^ 2 + (vy + GRAVITY * dt) ^ 2`; with `dt = 0` the speed after the
step equals the speed before the step. -/
theorem update_balls_collision_speed (ball wall : Circle ℝ) (dt : ℝ)
    (h : collides Real.sqrt ball wall dt) :
    ∃ b, update_balls Real.sqrt ball wall dt = some b ∧
      b.velocity.x ^ 2 + b.velocity.y ^ 2
        = ball.velocity.x ^ 2 + (ball.velocity.y + GRAVITY * dt) ^ 2 ∧
      (dt = 0 →
        Real.sqrt (b.velocity.x ^ 2 + b.velocity.y ^ 2)
          = Real.sqrt (ball.velocity.x ^ 2 + ball.velocity.y ^ 2)) := by
  have hs := reflect_speed (integrate ball dt) wall ((collides_iff ball wall dt).1 h)
  have hv : (integrate ball dt).velocity.x ^ 2 + (integrate ball dt).velocity.y ^ 2
      = ball.velocity.x ^ 2 + (ball.velocity.y + GRAVITY * dt) ^ 2 := rfl
  refine ⟨_, update_balls_of_collides ball wall dt h, hs.trans hv, ?_⟩
  intro h0
  rw [hs, hv, h0, mul_zero, add_zero]

theorem update_balls_collision_speed_witness :
    collides Real.sqrt edge_ball circle_window 0 ∧
    ∃ b, update_balls Real.sqrt edge_ball circle_window 0 = some b ∧
      b.velocity.x ^ 2 + b.velocity.y ^ 2
        = edge_ball.velocity.x ^ 2 + (edge_ball.velocity.y + GRAVITY * 0) ^ 2 ∧
      ((0 : ℝ) = 0 →
        Real.sqrt (b.velocity.x ^ 2 + b.velocity.y ^ 2)
          = Real.sqrt (edge_ball.velocity.x ^ 2 + edge_ball.velocity.y ^ 2)) :=
  ⟨edge_ball_collides,
    update_balls_collision_speed edge_ball circle_window 0 edge_ball_collides⟩

/-- In the exact model over the reals, a step of `update_balls` with `dt > 0` whose
collision branch is not taken returns the ball with `velocity.y` raised by
`GRAVITY * dt`, `velocity.x` unchanged and the position moved by `AIR_RESISTANCE * dt`
times the new velocity, where `GRAVITY = 750` and `AIR_RESISTANCE = 0.9`. -/
theorem update_balls_exact_no_collision (ball wall : Circle ℝ) (dt : ℝ) (_hdt : 0 < dt)
    (h : ¬ collides Real.sqrt ball wall dt) :
    ∃ b, update_balls Real.sqrt ball wall dt = some b ∧
      b.velocity.y = ball.velocity.y + GRAVITY * dt ∧
      b.velocity.x = ball.velocity.x ∧
      b.position.x = ball.position.x + AIR_RESISTANCE * dt * ball.velocity.x ∧
      b.position.y
        = ball.position.y + AIR_RESISTANCE * dt * (ball.velocity.y + GRAVITY * dt) ∧
      (GRAVITY : ℝ) = 750 ∧ (AIR_RESISTANCE : ℝ) = 0.9 := by
  refine ⟨integrate ball dt, update_balls_of_not_collides ball wall dt h, rfl, rfl, ?_, ?_,
    rfl, ?_⟩
  · simp only [integrate]; ring
  · simp only [integrate]; ring
  · unfold AIR_RESISTANCE; norm_num

/-! ## The integrator in binary32: claim C3 -/

/-- The digits counted by `bits` bracket the number. -/
theorem F32.bits_spec (fuel m : Nat) (hf : m ≤ fuel) (hm : m ≠ 0) :
    2 ^ (F32.bits fuel m - 1) ≤ m ∧ m < 2 ^ F32.bits fuel m := by
  induction fuel generalizing m with
  | zero => omega
  | succ f ih =>
    rw [F32.bits, if_neg hm]
    by_cases h2 : m / 2 = 0
    · have h1 : m = 1 := by omega
      subst h1
      cases f with
      | zero => simp [F32.bits]
      | succ g => simp [F32.bits]
    · obtain ⟨hlo, hhi⟩ := ih (m / 2) (by omega) h2
      have hpos : 1 ≤ F32.bits f (m / 2) := by
        cases f with
        | zero => omega
        | succ g => rw [F32.bits, if_neg h2]; omega
      constructor
      · have e : F32.bits f (m / 2) + 1 - 1 = (F32.bits f (m / 2) - 1) + 1 := by omega
        rw [e, pow_succ]
        omega
      · rw [pow_succ]
        omega

/-- The result of `rne` is within half a unit of the quotient. -/
theorem F32.rne_spec (N D : Nat) (hD : 0 < D) :
    2 * (F32.rne N D * D) ≤ 2 * N + D ∧ 2 * N ≤ 2 * (F32.rne N D * D) + D := by
  have hdm := Nat.div_add_mod N D
  have hlt := Nat.mod_lt N hD
  have hc : D * (N / D) = N / D * D := Nat.mul_comm _ _
  have hs : (N / D + 1) * D = N / D * D + D := by ring
  unfold F32.rne
  split_ifs <;> rw [hs] at * <;> omega

/-- The integer part of the square root decides `sqrtf` on a non-negative finite
value. -/
theorem F32.sqrt_fin (k s : Nat) (hs : Nat.sqrt (k * 2 ^ 149) = s) :
    F32.sqrt (F32.fin (k : Int)) = F32.sqrt_round (k * 2 ^ 149) s := by
  show (if (k : Int) < 0 then F32.nan
    else F32.sqrt_round ((k : Int).toNat * 2 ^ 149)
      (Nat.sqrt ((k : Int).toNat * 2 ^ 149))) = _
  rw [if_neg (by omega), Int.toNat_natCast, hs]

set_option maxRecDepth 100000 in
/-- The constant `750.0f` is `750`. -/
theorem GRAVITY32_eq : GRAVITY32 = F32.fin (750 * 2 ^ 149) := by decide

set_option maxRecDepth 100000 in
/-- The constant `0.90f` is `7549747 / 2 ^ 23`. -/
theorem AIR_RESISTANCE32_eq : AIR_RESISTANCE32 = F32.fin (7549747 * 2 ^ 126) := by
  decide

set_option maxRecDepth 100000 in
/-- The frame time `16 / 1000.0f` is `8589935 / 2 ^ 29`. -/
theorem frame_dt_eq : frame_dt = F32.fin (8589935 * 2 ^ 120) := by decide

set_option maxRecDepth 100000 in
theorem frame_dt_pos : F32.lt (F32.ofInt 0) frame_dt = true := by decide

set_option maxRecDepth 100000 in
theorem frame_velocity_x_before : frame_ball.velocity.x = F32.fin (444 * 2 ^ 149) := by
  decide

set_option maxRecDepth 100000 in
theorem frame_velocity_y_before : frame_ball.velocity.y = F32.fin 0 := by
  decide

set_option maxRecDepth 100000 in
theorem frame_velocity_y :
    (integrate32 frame_ball frame_dt).velocity.y = F32.fin (12582913 * 2 ^ 129) := by
  decide

set_option maxRecDepth 100000 in
theorem frame_position_x :
    (integrate32 frame_ball frame_dt).position.x = F32.fin (12005985 * 2 ^ 134) := by
  decide

set_option maxRecDepth 100000 in
theorem frame_position_x_before : frame_ball.position.x = F32.fin (360 * 2 ^ 149) := by
  decide

set_option maxRecDepth 100000 in
/-- The sum `position.x + (AIR_RESISTANCE * dt) * velocity.x`, in the order of the
factors of the claim, is another binary32 value: `6002993 / 2 ^ 14`. -/
theorem frame_position_x_reordered :
    F32.add frame_ball.position.x
        (F32.mul (F32.mul AIR_RESISTANCE32 frame_dt) frame_ball.velocity.x)
      = F32.fin (6002993 * 2 ^ 135) := by
  decide

set_option maxRecDepth 100000 in
theorem frame_radicand :
    radicand32 (integrate32 frame_ball frame_dt) circle_window32
      = F32.fin (2680933 * 2 ^ 133) := by
  decide

set_option maxRecDepth 100000 in
theorem frame_sqrt :
    F32.sqrt (F32.fin (2680933 * 2 ^ 133)) = F32.fin (419163 * 2 ^ 133) := by
  have hs : Nat.sqrt (2680933 * 2 ^ 133 * 2 ^ 149)
      = 4564280947199197340525763158342217097341425657 := by
    norm_num
  have hc : (2680933 * 2 ^ 133 : Int) = ((2680933 * 2 ^ 133 : Nat) : Int) := by norm_num
  rw [hc, F32.sqrt_fin _ _ hs]
  decide

set_option maxRecDepth 100000 in
/-- On the frame input the collision branch is not taken: the distance is
`419163 / 2 ^ 16`, about `6.4`. -/
theorem frame_not_collides : collides32 frame_ball circle_window32 frame_dt = false := by
  unfold collides32 distance32
  rw [frame_radicand, frame_sqrt]
  decide

/-- Without a collision the binary32 step is the binary32 integration. -/
theorem update_balls32_of_not_collides (ball wall : Circle F32) (dt : F32)
    (h : collides32 ball wall dt = false) :
    update_balls32 ball wall dt = integrate32 ball dt := by
  unfold update_balls32
  simp only [h, Bool.false_eq_true, if_false]

/-- C3, as stated, fails on the binary32 arithmetic of the code. For the primary
particle at the centre with velocity `(444, 0)` and the `dt` of a frame of 16 ticks,
`dt > 0` and the collision branch is not taken, but `velocity.y` after the step is
`12582913 / 2 ^ 20` and not `velocity.y_before + GRAVITY * dt`, `position.x` is
`12005985 / 2 ^ 15`, which is neither `position.x_before + 0.9 * dt * velocity.x` nor
the binary32 value of `position.x_before + (AIR_RESISTANCE * dt) * velocity.x`, and
`AIR_RESISTANCE` is not `0.9`. -/
theorem frame_step_not_exact :
    F32.lt (F32.ofInt 0) frame_dt = true ∧
    collides32 frame_ball circle_window32 frame_dt = false ∧
    F32.toRat (update_balls32 frame_ball circle_window32 frame_dt).velocity.y
      = 12582913 / 2 ^ 20 ∧
    F32.toRat (update_balls32 frame_ball circle_window32 frame_dt).velocity.y
      ≠ F32.toRat frame_ball.velocity.y + 750 * F32.toRat frame_dt ∧
    F32.toRat (update_balls32 frame_ball circle_window32 frame_dt).position.x
      = 12005985 / 2 ^ 15 ∧
    F32.toRat (update_balls32 frame_ball circle_window32 frame_dt).position.x
      ≠ F32.toRat frame_ball.position.x
        + 9 / 10 * F32.toRat frame_dt * F32.toRat frame_ball.velocity.x ∧
    (update_balls32 frame_ball circle_window32 frame_dt).position.x
      ≠ F32.add frame_ball.position.x
        (F32.mul (F32.mul AIR_RESISTANCE32 frame_dt) frame_ball.velocity.x) ∧
    F32.toRat AIR_RESISTANCE32 ≠ 9 / 10 := by
  refine ⟨frame_dt_pos, frame_not_collides, ?_⟩
  rw [update_balls32_of_not_collides _ _ _ frame_not_collides, frame_velocity_y,
    frame_position_x, frame_position_x_reordered, frame_position_x_before,
    frame_velocity_x_before, frame_velocity_y_before, frame_dt_eq, AIR_RESISTANCE32_eq]
  refine ⟨?_, ?_, ?_, ?_, ?_, ?_⟩
  · norm_num [F32.toRat]
  · norm_num [F32.toRat]
  · norm_num [F32.toRat]
  · norm_num [F32.toRat]
  · intro h
    have h2 := F32.fin.inj h
    norm_num at h2
  · norm_num [F32.toRat]

/-- C3, amended: a binary32 step of `update_balls` with `dt > 0` whose collision
branch is not taken returns the ball with `velocity.y` the rounded sum of the old
`velocity.y` and the rounded product `GRAVITY * dt`, `velocity.x` unchanged, and each
coordinate of the position the rounded sum of the old coordinate and the rounded
product `(velocity * AIR_RESISTANCE) * dt`, taken in this order with the new velocity,
where `GRAVITY = 750` and `AIR_RESISTANCE = 0.90f = 7549747 / 8388608`. -/
theorem update_balls32_no_collision (ball wall : Circle F32) (dt : F32)
    (_hdt : F32.lt (F32.ofInt 0) dt = true)
    (h : collides32 ball wall dt = false) :
    (update_balls32 ball wall dt).velocity.y
      = F32.add ball.velocity.y (F32.mul GRAVITY32 dt) ∧
    (update_balls32 ball wall dt).velocity.x = ball.velocity.x ∧
    (update_balls32 ball wall dt).position.x
      = F32.add ball.position.x
          (F32.mul (F32.mul ball.velocity.x AIR_RESISTANCE32) dt) ∧
    (update_balls32 ball wall dt).position.y
      = F32.add ball.position.y
          (F32.mul
            (F32.mul (F32.add ball.velocity.y (F32.mul GRAVITY32 dt)) AIR_RESISTANCE32)
            dt) ∧
    F32.toRat GRAVITY32 = 750 ∧
    F32.toRat AIR_RESISTANCE32 = 7549747 / 8388608 := by
  rw [update_balls32_of_not_collides ball wall dt h, GRAVITY32_eq, AIR_RESISTANCE32_eq]
  refine ⟨?_, rfl, ?_, ?_, ?_, ?_⟩
  · simp only [integrate32, GRAVITY32_eq]
  · simp only [integrate32, AIR_RESISTANCE32_eq]
  · simp only [integrate32, GRAVITY32_eq, AIR_RESISTANCE32_eq]
  · norm_num [F32.toRat]
  · norm_num [F32.toRat]

theorem update_balls32_no_collision_witness :
    F32.lt (F32.ofInt 0) frame_dt = true ∧
    collides32 frame_ball circle_window32 frame_dt = false ∧
    (update_balls32 frame_ball circle_window32 frame_dt).velocity.y
      = F32.add frame_ball.velocity.y (F32.mul GRAVITY32 frame_dt) ∧
    (update_balls32 frame_ball circle_window32 frame_dt).velocity.x
      = frame_ball.velocity.x ∧
    (update_balls32 frame_ball circle_window32 frame_dt).position.x
      = F32.add frame_ball.position.x
          (F32.mul (F32.mul frame_ball.velocity.x AIR_RESISTANCE32) frame_dt) ∧
    (update_balls32 frame_ball circle_window32 frame_dt).position.y
      = F32.add frame_ball.position.y
          (F32.mul
            (F32.mul (F32.add frame_ball.velocity.y (F32.mul GRAVITY32 frame_dt))
              AIR_RESISTANCE32)
            frame_dt) ∧
    F32.toRat GRAVITY32 = 750 ∧
    F32.toRat AIR_RESISTANCE32 = 7549747 / 8388608 :=
  ⟨frame_dt_pos, frame_not_collides,
    update_balls32_no_collision frame_ball circle_window32 frame_dt frame_dt_pos
      frame_not_collides⟩

/-! ## The scenario and the centre of the boundary: claims C4, C9 -/

/-- The particle of the scenario, stepped with `dt = 1/10`, is at distance `1349/4`,
that is `337.25`. -/
theorem scenario_distance :
    distance Real.sqrt (integrate scenario_ball (1 / 10)) circle_window = 1349 / 4 := by
  apply distance_eq_of_mul_self _ _ _ (by norm_num)
  simp only [circle_window_position_x, circle_window_position_y]
  simp only [integrate, scenario_ball, GRAVITY, AIR_RESISTANCE]
  norm_num

theorem scenario_not_collides :
    ¬ collides Real.sqrt scenario_ball circle_window (1 / 10) := by
  rw [collides_iff, scenario_distance]; norm_num

/-- C4, as stated, fails: in the scenario the collision branch is not taken, the
vertical velocity ends as `175` and not as `-175`, and the particle ends at distance
`337.25` and not at `360 - 7.2` from the centre. -/
theorem scenario_not_reflected :
    ¬ collides Real.sqrt scenario_ball circle_window (1 / 10) ∧
    ∃ b, update_balls Real.sqrt scenario_ball circle_window (1 / 10) = some b ∧
      b.velocity.y ≠ -175 ∧
      distance Real.sqrt b circle_window ≠ 360 - 72 / 10 := by
  refine ⟨scenario_not_collides, _,
    update_balls_of_not_collides _ _ _ scenario_not_collides, ?_, ?_⟩
  · simp only [integrate, scenario_ball, GRAVITY]; norm_num
  · rw [scenario_distance]; norm_num

/-- C4, amended: in the scenario gravity raises `velocity.y` to `175`, the damped
translation moves the particle to `(360, 22.75)`, at distance `337.25` from the
centre, the collision test made there is false, and the step returns the particle
with velocity `(0, 175)` at that position: nothing is reflected or clipped. -/
theorem scenario_step :
    ¬ collides Real.sqrt scenario_ball circle_window (1 / 10) ∧
    ∃ b, update_balls Real.sqrt scenario_ball circle_window (1 / 10) = some b ∧
      b.velocity.x = 0 ∧ b.velocity.y = 175 ∧
      b.position.x = 360 ∧ b.position.y = 360 - 353 + 1575 / 100 ∧
      distance Real.sqrt b circle_window = 33725 / 100 := by
  refine ⟨scenario_not_collides, _,
    update_balls_of_not_collides _ _ _ scenario_not_collides, ?_, ?_, ?_, ?_, ?_⟩
  · simp only [integrate, scenario_ball]
  · simp only [integrate, scenario_ball, GRAVITY]; norm_num
  · simp only [integrate, scenario_ball, AIR_RESISTANCE]; norm_num
  · simp only [integrate, scenario_ball, GRAVITY, AIR_RESISTANCE]; norm_num
  · rw [scenario_distance]; norm_num

/-- A ball whose translated position is the centre of the wall is at distance zero. -/
theorem distance_eq_zero_of_eq (m wall : Circle ℝ)
    (hx : m.position.x = wall.position.x) (hy : m.position.y = wall.position.y) :
    distance Real.sqrt m wall = 0 := by
  apply distance_eq_of_mul_self _ _ _ (le_refl 0)
  rw [hx, hy]; ring

/-- The step of `update_balls` never divides by zero: it always returns a ball. -/
theorem update_balls_isSome (ball wall : Circle ℝ) (dt : ℝ) :
    ∃ b, update_balls Real.sqrt ball wall dt = some b := by
  by_cases h : collides Real.sqrt ball wall dt
  · exact ⟨_, update_balls_of_collides ball wall dt h⟩
  · exact ⟨_, update_balls_of_not_collides ball wall dt h⟩

/-- C9, as stated, fails: the particle resting on the centre of the boundary, stepped
with `dt = 0`, is at distance zero after the translation, and the step returns a
ball: the division `1 / distance` is not executed. -/
theorem centre_step_no_division :
    distance Real.sqrt (integrate centre_ball 0) circle_window = 0 ∧
    update_balls Real.sqrt centre_ball circle_window 0 ≠ none := by
  have hd : distance Real.sqrt (integrate centre_ball 0) circle_window = 0 := by
    apply distance_eq_zero_of_eq
    · rw [circle_window_position_x]; simp [integrate, centre_ball]
    · rw [circle_window_position_y]; simp [integrate, centre_ball]
  have hc : ¬ collides Real.sqrt centre_ball circle_window 0 := by
    rw [collides_iff, hd]; norm_num
  refine ⟨hd, ?_⟩
  rw [update_balls_of_not_collides _ _ _ hc]
  exact Option.some_ne_none _

/-- C9, amended: for a particle whose position after the translation coincides with
the centre of the wall, the distance is zero, the collision test is false, and the
step returns the translated particle without executing the normalisation
`1 / distance`: nothing is divided by zero. -/
theorem update_balls_at_centre (ball wall : Circle ℝ) (dt : ℝ)
    (hx : (integrate ball dt).position.x = wall.position.x)
    (hy : (integrate ball dt).position.y = wall.position.y) :
    distance Real.sqrt (integrate ball dt) wall = 0 ∧
    ¬ collides Real.sqrt ball wall dt ∧
    update_balls Real.sqrt ball wall dt = some (integrate ball dt) := by
  have hd := distance_eq_zero_of_eq _ _ hx hy
  have hc : ¬ collides Real.sqrt ball wall dt := by
    rw [collides_iff, hd]; norm_num
  exact ⟨hd, hc, update_balls_of_not_collides _ _ _ hc⟩

theorem update_balls_at_centre_witness :
    (integrate above_centre_ball (1 / 10)).position.x
      = (circle_window : Circle ℝ).position.x ∧
    (integrate above_centre_ball (1 / 10)).position.y
      = (circle_window : Circle ℝ).position.y ∧
    distance Real.sqrt (integrate above_centre_ball (1 / 10)) circle_window = 0 ∧
    ¬ collides Real.sqrt above_centre_ball circle_window (1 / 10) ∧
    update_balls Real.sqrt above_centre_ball circle_window (1 / 10)
      = some (integrate above_centre_ball (1 / 10)) :=
  have hx : (integrate above_centre_ball (1 / 10)).position.x
      = (circle_window : Circle ℝ).position.x := by
    rw [circle_window_position_x]
    simp [integrate, above_centre_ball]
  have hy : (integrate above_centre_ball (1 / 10)).position.y
      = (circle_window : Circle ℝ).position.y := by
    rw [circle_window_position_y]
    simp only [integrate, above_centre_ball, GRAVITY, AIR_RESISTANCE]
    norm_num
  ⟨hx, hy, update_balls_at_centre above_centre_ball circle_window (1 / 10) hx hy⟩

/-! ## The particle store -/

theorem spawn_velocity_x_bounds (r : Nat) :
    -n ≤ spawn_velocity_x r ∧ spawn_velocity_x r ≤ n := by
  have h0 : 0 ≤ Int.tmod (r : Int) (2 * n + 1) := Int.tmod_nonneg _ (by omega)
  have h1 : Int.tmod (r : Int) (2 * n + 1) < 2 * n + 1 :=
    Int.tmod_lt_of_pos _ (by unfold n; norm_num)
  unfold spawn_velocity_x
  constructor <;> omega

theorem reset_velocity_x_bounds (r : Nat) :
    -n ≤ reset_velocity_x r ∧ reset_velocity_x r ≤ n - 1 := by
  have h0 : 0 ≤ Int.tmod (r : Int) (2 * n) := Int.tmod_nonneg _ (by omega)
  have h1 : Int.tmod (r : Int) (2 * n) < 2 * n :=
    Int.tmod_lt_of_pos _ (by unfold n; norm_num)
  unfold reset_velocity_x
  constructor <;> omega

theorem one_le_MAX_BALLS : 1 ≤ MAX_BALLS := by decide

section StoreFacts

variable {K : Type} [LinearOrderedField K]

theorem spawn_loop_of_lt (s : State K) (h : s.ball_count < MAX_BALLS) :
    spawn_loop s = spawn_loop (spawn_body s) := by
  rw [spawn_loop, if_pos h]

theorem spawn_loop_of_not_lt (s : State K) (h : ¬ s.ball_count < MAX_BALLS) :
    spawn_loop s = s := by
  rw [spawn_loop, if_neg h]

/-- What the loop of the case `SDL_SCANCODE_SPACE` leaves behind: a full store, the
primary particle, the flag `running` and the cells below the old count untouched, and
every cell from the old count on written with a fresh circle. -/
theorem spawn_loop_spec (k : Nat) (s : State K) (hle : s.ball_count ≤ MAX_BALLS)
    (hk : MAX_BALLS - s.ball_count = k) :
    (spawn_loop s).ball_count = MAX_BALLS ∧
    (spawn_loop s).ball = s.ball ∧
    (spawn_loop s).running = s.running ∧
    (∀ i, i < s.ball_count → (spawn_loop s).balls i = s.balls i) ∧
    (∀ i, s.ball_count ≤ i → i < MAX_BALLS →
      ∃ r0 r1 r2 r3, (spawn_loop s).balls i = random_circle r0 r1 r2 r3) := by
  induction k generalizing s with
  | zero =>
    have hfull : ¬ s.ball_count < MAX_BALLS := by omega
    rw [spawn_loop_of_not_lt s hfull]
    refine ⟨by omega, rfl, rfl, fun _ _ => rfl, ?_⟩
    intro i h1 h2
    omega
  | succ k ih =>
    have hlt : s.ball_count < MAX_BALLS := by omega
    rw [spawn_loop_of_lt s hlt]
    obtain ⟨hc, hb, hr, hold, hnew⟩ := ih (spawn_body s) (Nat.succ_le_of_lt hlt)
      (by show MAX_BALLS - (s.ball_count + 1) = k; omega)
    refine ⟨hc, hb, hr, ?_, ?_⟩
    · intro i hi
      rw [hold i (Nat.lt_succ_of_lt hi)]
      exact Function.update_noteq (Nat.ne_of_lt hi) _ _
    · intro i h1 h2
      rcases Nat.eq_or_lt_of_le h1 with heq | hgt
      · refine ⟨s.rng s.calls, s.rng (s.calls + 1), s.rng (s.calls + 2),
          s.rng (s.calls + 3), ?_⟩
        rw [hold i (by show i < s.ball_count + 1; omega), ← heq]
        exact Function.update_same _ _ _
      · exact hnew i hgt h2

/-- The fields of a circle built by `random_circle`. -/
theorem random_circle_spec (r0 r1 r2 r3 : Nat) :
    (random_circle r0 r1 r2 r3 : Circle K).position.x = 360 ∧
    (random_circle r0 r1 r2 r3 : Circle K).position.y = 360 ∧
    (random_circle r0 r1 r2 r3 : Circle K).velocity.y = 0 ∧
    ∃ k : Int, -n ≤ k ∧ k ≤ n ∧
      (random_circle r0 r1 r2 r3 : Circle K).velocity.x = (k : K) := by
  refine ⟨?_, ?_, rfl, spawn_velocity_x r0, (spawn_velocity_x_bounds r0).1,
    (spawn_velocity_x_bounds r0).2, rfl⟩
  · simp [random_circle, half_width_eq]
  · simp [random_circle, half_height_eq]

/-- Every key keeps the live count between one and `MAX_BALLS`. -/
theorem keydown_ball_count (s : State K) (key : Scancode)
    (h : 1 ≤ s.ball_count ∧ s.ball_count ≤ MAX_BALLS) :
    1 ≤ (keydown s key).ball_count ∧ (keydown s key).ball_count ≤ MAX_BALLS := by
  cases key with
  | R => exact ⟨le_refl 1, one_le_MAX_BALLS⟩
  | Q =>
    have hs := (spawn_loop_spec _ { s with running := false } h.2 rfl).1
    show 1 ≤ (spawn_loop _).ball_count ∧ (spawn_loop _).ball_count ≤ MAX_BALLS
    rw [hs]
    exact ⟨one_le_MAX_BALLS, le_refl _⟩
  | SPACE =>
    have hs := (spawn_loop_spec _ s h.2 rfl).1
    show 1 ≤ (spawn_loop _).ball_count ∧ (spawn_loop _).ball_count ≤ MAX_BALLS
    rw [hs]
    exact ⟨one_le_MAX_BALLS, le_refl _⟩
  | other => exact h

/-- Every sequence of keys keeps the live count between one and `MAX_BALLS`. -/
theorem run_ball_count (keys : List Scancode) (s : State K)
    (h : 1 ≤ s.ball_count ∧ s.ball_count ≤ MAX_BALLS) :
    1 ≤ (run s keys).ball_count ∧ (run s keys).ball_count ≤ MAX_BALLS := by
  induction keys generalizing s with
  | nil => exact h
  | cons key rest ih => exact ih (keydown s key) (keydown_ball_count s key h)

/-! ## The particle store: claims C5, C6, C7, C8, C10 -/

/-- C5: from the initial state of `main`, where `ball_count = 1`, after every finite
sequence of key commands (R, Q, SPACE or any other key) the live count satisfies
`1 ≤ ball_count ≤ MAX_BALLS`, with `MAX_BALLS = 2048`. -/
theorem ball_count_invariant (rng : Nat → Nat) (balls0 : Nat → Circle K)
    (keys : List Scancode) :
    (init rng balls0).ball_count = 1 ∧
    1 ≤ (run (init rng balls0) keys).ball_count ∧
    (run (init rng balls0) keys).ball_count ≤ MAX_BALLS ∧
    MAX_BALLS = 2048 :=
  ⟨rfl, (run_ball_count keys (init rng balls0) ⟨le_refl 1, one_le_MAX_BALLS⟩).1,
    (run_ball_count keys (init rng balls0) ⟨le_refl 1, one_le_MAX_BALLS⟩).2, rfl⟩

/-- C6: in every state, handling the R key yields `ball_count = 1`, puts the primary
particle on the centre `circle_window.position = (360, 360)` of the boundary, and
sets its vertical velocity to zero. -/
theorem reset_collapses (s : State K) :
    (keydown s Scancode.R).ball_count = 1 ∧
    (keydown s Scancode.R).ball.position.x = (circle_window : Circle K).position.x ∧
    (keydown s Scancode.R).ball.position.y = (circle_window : Circle K).position.y ∧
    (circle_window : Circle K).position.x = ((Int.tdiv SCREEN_WIDTH 2 : Int) : K) ∧
    (circle_window : Circle K).position.y = ((Int.tdiv SCREEN_HEIGHT 2 : Int) : K) ∧
    (keydown s Scancode.R).ball.position.x = 360 ∧
    (keydown s Scancode.R).ball.position.y = 360 ∧
    (keydown s Scancode.R).ball.velocity.y = 0 := by
  refine ⟨rfl, rfl, rfl, rfl, rfl, ?_, ?_, rfl⟩
  · simp [keydown, reset, half_width_eq]
  · simp [keydown, reset, half_height_eq]

/-- C7: in a state with `1 ≤ ball_count ≤ MAX_BALLS`, handling the SPACE key ends
with `ball_count = MAX_BALLS`, leaves the primary particle and every cell of `balls`
below the old count unchanged, changes nothing at all when the store is already
full, and writes to every cell from the old count up to `MAX_BALLS` a circle at
`(360, 360)` with `velocity.y = 0` and `velocity.x` an integer of `[-n, n]`, where
`n = 1000`, whatever `rand()` returns. -/
theorem spawn_fills (s : State K) (_h1 : 1 ≤ s.ball_count)
    (h2 : s.ball_count ≤ MAX_BALLS) :
    (keydown s Scancode.SPACE).ball_count = MAX_BALLS ∧
    (keydown s Scancode.SPACE).ball = s.ball ∧
    (∀ i, i < s.ball_count → (keydown s Scancode.SPACE).balls i = s.balls i) ∧
    (s.ball_count = MAX_BALLS → keydown s Scancode.SPACE = s) ∧
    (∀ i, s.ball_count ≤ i → i < MAX_BALLS →
      ((keydown s Scancode.SPACE).balls i).position.x = 360 ∧
      ((keydown s Scancode.SPACE).balls i).position.y = 360 ∧
      ((keydown s Scancode.SPACE).balls i).velocity.y = 0 ∧
      ∃ k : Int, -n ≤ k ∧ k ≤ n ∧
        ((keydown s Scancode.SPACE).balls i).velocity.x = (k : K)) ∧
    n = 1000 := by
  obtain ⟨hc, hb, _, hold, hnew⟩ := spawn_loop_spec _ s h2 rfl
  refine ⟨hc, hb, hold, ?_, ?_, rfl⟩
  · intro hfull
    exact spawn_loop_of_not_lt s (by omega)
  · intro i hi1 hi2
    obtain ⟨r0, r1, r2, r3, hr⟩ := hnew i hi1 hi2
    have hs := random_circle_spec (K := K) r0 r1 r2 r3
    rw [← hr] at hs
    exact hs

theorem spawn_fills_witness :
    1 ≤ sample_state.ball_count ∧ sample_state.ball_count ≤ MAX_BALLS ∧
    (keydown sample_state Scancode.SPACE).ball_count = MAX_BALLS ∧
    (keydown sample_state Scancode.SPACE).ball = sample_state.ball ∧
    (∀ i, i < sample_state.ball_count →
      (keydown sample_state Scancode.SPACE).balls i = sample_state.balls i) ∧
    (sample_state.ball_count = MAX_BALLS →
      keydown sample_state Scancode.SPACE = sample_state) ∧
    (∀ i, sample_state.ball_count ≤ i → i < MAX_BALLS →
      ((keydown sample_state Scancode.SPACE).balls i).position.x = 360 ∧
      ((keydown sample_state Scancode.SPACE).balls i).position.y = 360 ∧
      ((keydown sample_state Scancode.SPACE).balls i).velocity.y = 0 ∧
      ∃ k : Int, -n ≤ k ∧ k ≤ n ∧
        ((keydown sample_state Scancode.SPACE).balls i).velocity.x = (k : ℚ)) ∧
    n = 1000 :=
  ⟨by decide, by decide, spawn_fills sample_state (by decide) (by decide)⟩

/-- C8: the horizontal velocity assigned by the R key is an integer of `[-n, n - 1]`,
so it is never `n`: the value `rand() = 2000` gives `-n` on line 144, where the same
value gives `n` in the initialisers of lines 116 and 155. -/
theorem reset_velocity_never_n (s : State K) :
    (∃ k : Int, -n ≤ k ∧ k ≤ n - 1 ∧
      (keydown s Scancode.R).ball.velocity.x = (k : K)) ∧
    (keydown s Scancode.R).ball.velocity.x ≠ ((n : Int) : K) ∧
    reset_velocity_x 2000 = -n ∧ spawn_velocity_x 2000 = n := by
  have hb := reset_velocity_x_bounds (s.rng s.calls)
  refine ⟨⟨_, hb.1, hb.2, rfl⟩, ?_, by decide, by decide⟩
  show ((reset_velocity_x (s.rng s.calls) : Int) : K) ≠ ((n : Int) : K)
  intro h
  have := Int.cast_injective h
  omega

/-- C10: in a state with `1 ≤ ball_count ≤ MAX_BALLS`, handling the Q key sets
`running` to false and then runs the case of the SPACE key, so that afterwards
`ball_count = MAX_BALLS`. -/
theorem quit_falls_through (s : State K) (_h1 : 1 ≤ s.ball_count)
    (h2 : s.ball_count ≤ MAX_BALLS) :
    (keydown s Scancode.Q).running = false ∧
    keydown s Scancode.Q = keydown { s with running := false } Scancode.SPACE ∧
    (keydown s Scancode.Q).ball_count = MAX_BALLS := by
  obtain ⟨hc, _, hr, _, _⟩ := spawn_loop_spec _ { s with running := false } h2 rfl
  exact ⟨hr, rfl, hc⟩

theorem quit_falls_through_witness :
    1 ≤ sample_state.ball_count ∧ sample_state.ball_count ≤ MAX_BALLS ∧
    (keydown sample_state Scancode.Q).running = false ∧
    keydown sample_state Scancode.Q
      = keydown { sample_state with running := false } Scancode.SPACE ∧
    (keydown sample_state Scancode.Q).ball_count = MAX_BALLS :=
  ⟨by decide, by decide, quit_falls_through sample_state (by decide) (by decide)⟩

end StoreFacts

end PhysicsSim
